import Mathlib

/-!
Verification development for the `circuitbreaker` package
(go-anyway/framework-circuitbreaker).

The repository is a thin facade (`circuitbreaker.go`) over the external
dependency `github.com/sony/gobreaker`, whose source is not part of the
repository.  The facade (`Settings`, `DefaultSettings`, `NewCircuitBreaker`,
`Execute`, `State`, `Counts`, `UpdateSettings`, `GetSettings`) is embedded
directly from `src/circuitbreaker.go`.  The inner state machine that the
facade delegates to is modelled from the specification's description of the
circuit-breaker core (states, counters, transition rules, admission rules,
lazy timeout evaluation).

Time is modelled as an explicit `Int` clock value (nanoseconds, mirroring
Go's `time.Duration`/monotonic clock), threaded through every operation that
reads the clock.  A unit of caller work `fn func() (interface{}, error)` is
modelled as its outcome: a pair of a result value and an optional error.
-/

namespace Gobreaker

/-- Modelled from the spec: one nanosecond-denominated second, so that
`60 * time.Second` etc. can be written as in the Go source. -/
def second : Int := 1000000000

/-- Modelled from the spec: `gobreaker.Counts` — "tracks, within the current
window: total requests, total successes, total failures, consecutive
successes, consecutive failures". -/
structure Counts where
  requests : Nat
  totalSuccesses : Nat
  totalFailures : Nat
  consecutiveSuccesses : Nat
  consecutiveFailures : Nat
deriving Repr, DecidableEq

/-- The all-zero counter snapshot. -/
def Counts.zero : Counts := ⟨0, 0, 0, 0, 0⟩

/-- Modelled from the spec: a request is admitted — "records a 'request
started' marker". -/
def Counts.onRequest (c : Counts) : Counts :=
  { c with requests := c.requests + 1 }

/-- Modelled from the spec: a success is recorded; "consecutive counters
reset to 0 the instant the opposite outcome occurs". -/
def Counts.onSuccess (c : Counts) : Counts :=
  { c with
    totalSuccesses := c.totalSuccesses + 1
    consecutiveSuccesses := c.consecutiveSuccesses + 1
    consecutiveFailures := 0 }

/-- Modelled from the spec: a failure is recorded; "consecutive counters
reset to 0 the instant the opposite outcome occurs". -/
def Counts.onFailure (c : Counts) : Counts :=
  { c with
    totalFailures := c.totalFailures + 1
    consecutiveFailures := c.consecutiveFailures + 1
    consecutiveSuccesses := 0 }

/-- Modelled from the spec: the three states of `gobreaker.State`
(`StateClosed`, `StateOpen`, `StateHalfOpen`). -/
inductive State where
  | closed
  | opened
  | halfOpen
deriving Repr, DecidableEq

/-- Modelled from the spec: Go errors as observed through the breaker.  The
spec gives the rejection a "distinct, stable error identity" used both when
the breaker is Open and when the half-open probe budget is exhausted
("rejects with the same error"); every other error is a caller error. -/
inductive GoError where
  | errOpenState
  | custom (msg : String)
deriving Repr, DecidableEq

/-- Modelled from the spec: the default trip predicate — "default trip
predicate (consecutive-failure threshold, e.g. 5)"; the facade source
comments that a nil `ReadyToTrip` means "5 consecutive failures trip". -/
def defaultReadyToTrip (c : Counts) : Bool :=
  5 ≤ c.consecutiveFailures

/-- Modelled from the spec: `gobreaker.Settings` as the facade fills it in —
name, half-open probe budget, closed-window length, open timeout, and an
optional trip predicate (left unset when the caller supplied none). -/
structure GoSettings where
  name : String
  maxRequests : Nat
  interval : Int
  timeout : Int
  readyToTrip : Option (Counts → Bool)

/-- Modelled from the spec: `gobreaker.CircuitBreaker` — the state machine:
current state, current counters, and the instant the current state (or
closed-state window) began, for lazy `Interval`/`Timeout` evaluation. -/
structure CircuitBreaker where
  name : String
  maxRequests : Nat
  interval : Int
  timeout : Int
  readyToTrip : Counts → Bool
  state : State
  counts : Counts
  stateStart : Int

/-- Modelled from the spec: `gobreaker.NewCircuitBreaker` — "Initial state:
Closed, zero Counts"; a missing trip predicate falls back to the default
consecutive-failure threshold. -/
def newCircuitBreaker (s : GoSettings) (now : Int) : CircuitBreaker :=
  { name := s.name
    maxRequests := s.maxRequests
    interval := s.interval
    timeout := s.timeout
    readyToTrip := s.readyToTrip.getD defaultReadyToTrip
    state := State.closed
    counts := Counts.zero
    stateStart := now }

/-- Modelled from the spec: lazy, time-driven self-transitions, evaluated on
demand at each call attempt or state read.  Closed → Closed window rollover
when `Interval > 0` and the window's elapsed time exceeds `Interval`
(clearing Counts); Open → HalfOpen "once `Timeout` has elapsed since
entering Open" (clearing Counts); HalfOpen has no time-driven transition. -/
def CircuitBreaker.refresh (b : CircuitBreaker) (now : Int) : CircuitBreaker :=
  match b.state with
  | State.closed =>
      if 0 < b.interval ∧ b.stateStart + b.interval < now then
        { b with counts := Counts.zero, stateStart := now }
      else b
  | State.opened =>
      if b.stateStart + b.timeout ≤ now then
        { b with state := State.halfOpen, counts := Counts.zero, stateStart := now }
      else b
  | State.halfOpen => b

/-- Modelled from the spec: outcome recording and outcome-driven transitions
for an admitted call.  The admitted call first bumps `requests`; a non-nil
error is a failure, otherwise a success.  While Closed the trip predicate is
evaluated on the recorded counts and fires Closed → Open (clearing Counts,
recording the transition time); while HalfOpen any failure fires
HalfOpen → Open, and a success that brings consecutive successes up to
`MaxRequests` fires HalfOpen → Closed (clearing Counts).  The caller's own
result and error are returned unchanged. -/
def CircuitBreaker.executeAdmitted {α : Type} (b : CircuitBreaker)
    (fn : α × Option GoError) (now : Int) :
    (Option α × Option GoError) × CircuitBreaker :=
  let c := b.counts.onRequest
  match fn.2 with
  | some _ =>
      let c2 := c.onFailure
      let b2 :=
        match b.state with
        | State.halfOpen =>
            { b with state := State.opened, counts := Counts.zero, stateStart := now }
        | _ =>
            if b.readyToTrip c2 then
              { b with state := State.opened, counts := Counts.zero, stateStart := now }
            else { b with counts := c2 }
      ((some fn.1, fn.2), b2)
  | none =>
      let c2 := c.onSuccess
      let b2 :=
        match b.state with
        | State.halfOpen =>
            if b.maxRequests ≤ c2.consecutiveSuccesses then
              { b with state := State.closed, counts := Counts.zero, stateStart := now }
            else { b with counts := c2 }
        | _ =>
            if b.readyToTrip c2 then
              { b with state := State.opened, counts := Counts.zero, stateStart := now }
            else { b with counts := c2 }
      ((some fn.1, fn.2), b2)

/-- Modelled from the spec: `gobreaker.CircuitBreaker.Execute` — first the
lazy transitions are applied, then the admission rule per state: "Closed
admits unconditionally; Open rejects unconditionally with a 'breaker open'
error, not executing the caller's work at all; HalfOpen admits only while
the number of requests already issued in this half-open episode is
`< MaxRequests`, else rejects with the same error."  A rejected call
returns the sentinel error immediately and "does not count as a request in
Counts". -/
def CircuitBreaker.execute {α : Type} (b : CircuitBreaker)
    (fn : α × Option GoError) (now : Int) :
    (Option α × Option GoError) × CircuitBreaker :=
  let b1 := b.refresh now
  match b1.state with
  | State.opened => ((none, some GoError.errOpenState), b1)
  | State.halfOpen =>
      if b1.counts.requests < b1.maxRequests then b1.executeAdmitted fn now
      else ((none, some GoError.errOpenState), b1)
  | State.closed => b1.executeAdmitted fn now

/-- Admission predicate of the state machine at clock value `now`: the call
is admitted exactly when, after the lazy transitions, the state is Closed,
or HalfOpen with the probe budget not yet exhausted. -/
def CircuitBreaker.admits (b : CircuitBreaker) (now : Int) : Bool :=
  match (b.refresh now).state with
  | State.closed => true
  | State.opened => false
  | State.halfOpen => decide ((b.refresh now).counts.requests < (b.refresh now).maxRequests)

/-- The counter invariant of the spec: "requests == successes + failures at
all times". -/
def Counts.consistent (c : Counts) : Prop :=
  c.requests = c.totalSuccesses + c.totalFailures

end Gobreaker

namespace Circuitbreaker

open Gobreaker (second)

/-- `Settings` from `src/circuitbreaker.go`: `MaxRequests uint32`,
`Interval time.Duration`, `Timeout time.Duration`, and an optional
`ReadyToTrip func(gobreaker.Counts) bool` (nil modelled as `none`). -/
structure Settings where
  MaxRequests : Nat
  Interval : Int
  Timeout : Int
  ReadyToTrip : Option (Gobreaker.Counts → Bool)

/-- `DefaultSettings` from `src/circuitbreaker.go`: `MaxRequests = 3`,
`Interval = 60s`, `Timeout = 30s`, nil `ReadyToTrip`. -/
def DefaultSettings : Settings :=
  { MaxRequests := 3
    Interval := 60 * second
    Timeout := 30 * second
    ReadyToTrip := none }

/-- `CircuitBreaker` from `src/circuitbreaker.go`: the wrapped gobreaker
instance, the breaker name, and the stored settings (the mutex guards
concurrent access in Go and has no sequential content). -/
structure CircuitBreaker where
  cb : Gobreaker.CircuitBreaker
  name : String
  settings : Settings

/-- `NewCircuitBreaker` from `src/circuitbreaker.go`: fills a
`gobreaker.Settings` from the facade settings (copying `ReadyToTrip` only
when non-nil, which is exactly the optional field) and wraps a fresh
gobreaker instance together with the name and the settings as given. -/
def NewCircuitBreaker (name : String) (settings : Settings) (now : Int) :
    CircuitBreaker :=
  let cbSettings : Gobreaker.GoSettings :=
    { name := name
      maxRequests := settings.MaxRequests
      interval := settings.Interval
      timeout := settings.Timeout
      readyToTrip := settings.ReadyToTrip }
  { cb := Gobreaker.newCircuitBreaker cbSettings now
    name := name
    settings := settings }

/-- `Execute` from `src/circuitbreaker.go`: delegates to the wrapped
gobreaker instance under the read lock. -/
def CircuitBreaker.Execute {α : Type} (cb : CircuitBreaker)
    (fn : α × Option Gobreaker.GoError) (now : Int) :
    (Option α × Option Gobreaker.GoError) × CircuitBreaker :=
  let r := cb.cb.execute fn now
  (r.1, { cb with cb := r.2 })

/-- `State` from `src/circuitbreaker.go`: the wrapped instance's current
state (after the lazy time-driven transitions). -/
def CircuitBreaker.State (cb : CircuitBreaker) (now : Int) : Gobreaker.State :=
  (cb.cb.refresh now).state

/-- `Counts` from `src/circuitbreaker.go`: a read-only snapshot of the
wrapped instance's counters. -/
def CircuitBreaker.Counts (cb : CircuitBreaker) : Gobreaker.Counts :=
  cb.cb.counts

/-- `UpdateSettings` from `src/circuitbreaker.go`: rebuilds the
`gobreaker.Settings` under the breaker's own stored name, replaces the
wrapped instance with a freshly created one, and stores the new settings. -/
def CircuitBreaker.UpdateSettings (cb : CircuitBreaker) (settings : Settings)
    (now : Int) : CircuitBreaker :=
  let cbSettings : Gobreaker.GoSettings :=
    { name := cb.name
      maxRequests := settings.MaxRequests
      interval := settings.Interval
      timeout := settings.Timeout
      readyToTrip := settings.ReadyToTrip }
  { cb with
    cb := Gobreaker.newCircuitBreaker cbSettings now
    settings := settings }

/-- `GetSettings` from `src/circuitbreaker.go`: the stored settings. -/
def CircuitBreaker.GetSettings (cb : CircuitBreaker) : Settings :=
  cb.settings

/-- A unit of work that always fails (returns a nil result and a non-nil
error), as in the repository's failure tests. -/
def failW : Option String × Option Gobreaker.GoError :=
  (none, some (Gobreaker.GoError.custom "fail"))

/-- A unit of work that always succeeds (non-nil result, nil error). -/
def okW : Option String × Option Gobreaker.GoError :=
  (some "ok", none)

/-- Runs a list of units of work through `Execute`, all at clock value 0. -/
def runCalls (cb : CircuitBreaker)
    (works : List (Option String × Option Gobreaker.GoError)) : CircuitBreaker :=
  works.foldl (fun b w => (b.Execute w 0).2) cb

/-- A breaker freshly created with the default settings. -/
def defaultBreaker : CircuitBreaker :=
  NewCircuitBreaker "b" DefaultSettings 0

/-- A default-settings breaker driven to the Open state by five consecutive
failures at clock value 0. -/
def openBreaker : CircuitBreaker :=
  runCalls defaultBreaker (List.replicate 5 failW)

/-- The open breaker one successful probe after its 30-second timeout: it is
in HalfOpen with one request and one consecutive success recorded. -/
def halfOpenBreaker : CircuitBreaker :=
  (openBreaker.Execute okW (31 * second)).2

/-- A breaker with a zero half-open probe budget (`MaxRequests = 0`),
otherwise the default profile, driven to the Open state by five consecutive
failures at clock value 0. -/
def zeroMaxOpenBreaker : CircuitBreaker :=
  runCalls (NewCircuitBreaker "z" ⟨0, 60 * second, 30 * second, none⟩ 0)
    (List.replicate 5 failW)

end Circuitbreaker

/-!
Theorems.  The helper lemmas about the modelled state machine come first;
the claim theorems follow.
-/

namespace Gobreaker

/-- A state machine whose lazily refreshed state is Open was not changed by
the refresh: neither the window rollover (which keeps Closed) nor the
timeout transition (which yields HalfOpen) can produce Open. -/
theorem refresh_eq_of_state_opened (b : CircuitBreaker) (now : Int)
    (h : (b.refresh now).state = State.opened) : b.refresh now = b := by
  obtain ⟨nm, mr, iv, tm, rtt, st, cts, ss⟩ := b
  unfold CircuitBreaker.refresh at h ⊢
  cases st with
  | closed =>
      by_cases hc : 0 < iv ∧ ss + iv < now
      · simp [hc] at h
      · simp [hc] at h
  | opened =>
      by_cases hc : ss + tm ≤ now
      · simp [hc] at h
      · simp [hc]
  | halfOpen => rfl

/-- If the refreshed state is Open then the stored state already was. -/
theorem state_opened_of_refresh (b : CircuitBreaker) (now : Int)
    (h : (b.refresh now).state = State.opened) : b.state = State.opened := by
  have he := refresh_eq_of_state_opened b now h
  rw [he] at h
  exact h

/-- An admitted call's returned pair is the caller's own result and error,
whatever outcome-driven transition follows. -/
theorem executeAdmitted_fst {α : Type} (b : CircuitBreaker)
    (fn : α × Option GoError) (now : Int) :
    (b.executeAdmitted fn now).1 = (some fn.1, fn.2) := by
  obtain ⟨v, e⟩ := fn
  unfold CircuitBreaker.executeAdmitted
  cases e <;> rfl

/-- HalfOpen has no time-driven transition: the lazy refresh leaves a
half-open state machine untouched. -/
theorem refresh_eq_of_halfOpen (b : CircuitBreaker) (now : Int)
    (h : b.state = State.halfOpen) : b.refresh now = b := by
  unfold CircuitBreaker.refresh
  rw [h]

/-- The lazy refresh preserves the counter invariant: it either keeps the
counters or clears them. -/
theorem refresh_counts_consistent (b : CircuitBreaker) (now : Int)
    (h : b.counts.consistent) : ((b.refresh now).counts).consistent := by
  obtain ⟨nm, mr, iv, tm, rtt, st, cts, ss⟩ := b
  unfold CircuitBreaker.refresh
  cases st <;> dsimp only <;> first
    | exact h
    | (split
       · simp [Counts.consistent, Counts.zero]
       · exact h)

/-- Recording an admitted call's outcome preserves the counter invariant:
the request and exactly one of success/failure are counted together, and a
transition clears the counters. -/
theorem executeAdmitted_consistent {α : Type} (b : CircuitBreaker)
    (fn : α × Option GoError) (now : Int)
    (h : b.counts.consistent) : ((b.executeAdmitted fn now).2).counts.consistent := by
  obtain ⟨v, e⟩ := fn
  obtain ⟨nm, mr, iv, tm, rtt, st, cts, ss⟩ := b
  obtain ⟨rq, ts, tf, cs, cf⟩ := cts
  simp only [Counts.consistent] at h
  unfold CircuitBreaker.executeAdmitted
  cases e <;> cases st <;>
    simp [Counts.consistent, Counts.zero, Counts.onRequest, Counts.onSuccess,
      Counts.onFailure] <;>
    split <;>
    simp [Counts.consistent, Counts.zero] <;>
    omega

/-- One `execute` step preserves the counter invariant, whether the call is
admitted or rejected. -/
theorem execute_consistent {α : Type} (b : CircuitBreaker)
    (fn : α × Option GoError) (now : Int)
    (h : b.counts.consistent) : ((b.execute fn now).2).counts.consistent := by
  have h1 := refresh_counts_consistent b now h
  unfold CircuitBreaker.execute
  cases hs : (b.refresh now).state with
  | closed => simp only [hs]; exact executeAdmitted_consistent _ _ _ h1
  | opened => simp only [hs]; exact h1
  | halfOpen =>
      simp only [hs]
      split
      · exact executeAdmitted_consistent _ _ _ h1
      · exact h1

end Gobreaker

namespace Circuitbreaker

open Gobreaker (second)

/-- Folding `UpdateSettings` calls preserves the facade name and keeps the
wrapped instance's name equal to it, starting from any breaker whose two
names agree. -/
theorem foldUpdates_name (updates : List (Settings × Int)) (b : CircuitBreaker)
    (n : String) (h1 : b.name = n) (h2 : b.cb.name = n) :
    (updates.foldl (fun x u => x.UpdateSettings u.1 u.2) b).name = n ∧
    (updates.foldl (fun x u => x.UpdateSettings u.1 u.2) b).cb.name = n := by
  induction updates generalizing b with
  | nil => exact ⟨h1, h2⟩
  | cons u us ih =>
      simp only [List.foldl_cons]
      exact ih _ h1 h1

/-- C1: a breaker built from `DefaultSettings()` (nil `ReadyToTrip`, so the
default consecutive-failure threshold of 5 applies) with an always-failing
work function stays Closed through the first four consecutive failures, is
Open exactly after the fifth, and is still Closed after a run of six calls
holding five total failures split by an intervening success. -/
theorem C1_default_settings_trips_on_fifth_consecutive_failure :
    (runCalls defaultBreaker (List.replicate 0 failW)).State 0 = Gobreaker.State.closed ∧
    (runCalls defaultBreaker (List.replicate 1 failW)).State 0 = Gobreaker.State.closed ∧
    (runCalls defaultBreaker (List.replicate 2 failW)).State 0 = Gobreaker.State.closed ∧
    (runCalls defaultBreaker (List.replicate 3 failW)).State 0 = Gobreaker.State.closed ∧
    (runCalls defaultBreaker (List.replicate 4 failW)).State 0 = Gobreaker.State.closed ∧
    (runCalls defaultBreaker (List.replicate 5 failW)).State 0 = Gobreaker.State.opened ∧
    (runCalls defaultBreaker [failW, failW, okW, failW, failW, failW]).State 0 = Gobreaker.State.closed := by
  decide

/-- C2: when the breaker's observed state is Open, `Execute` returns the
stable circuit-open rejection error and an unchanged breaker — independent
of the supplied work (so the work is never invoked) and with every `Counts`
field untouched. -/
theorem C2_open_rejects_without_invoking_work {α : Type} (b : CircuitBreaker)
    (w : α × Option Gobreaker.GoError) (now : Int)
    (h : b.State now = Gobreaker.State.opened) :
    b.Execute w now = ((none, some Gobreaker.GoError.errOpenState), b) := by
  have h1 : b.cb.refresh now = b.cb := Gobreaker.refresh_eq_of_state_opened _ _ h
  have h2 : b.cb.state = Gobreaker.State.opened := Gobreaker.state_opened_of_refresh _ _ h
  simp only [CircuitBreaker.Execute, Gobreaker.CircuitBreaker.execute, h1, h2]

/-- Witness for C2: the default breaker after five consecutive failures is
Open at clock 0, and a successful work at clock 0 is rejected with the
circuit-open error and no change to the breaker. -/
theorem C2_witness_open_breaker :
    openBreaker.State 0 = Gobreaker.State.opened ∧
    openBreaker.Execute okW 0 = ((none, some Gobreaker.GoError.errOpenState), openBreaker) :=
  ⟨by decide, C2_open_rejects_without_invoking_work openBreaker okW 0 (by decide)⟩

/-- C3: after `UpdateSettings`, from any breaker state and counters and for
any new settings, `Counts()` is the all-zero snapshot and `State()` is
Closed (at every later clock value). -/
theorem C3_updateSettings_resets_counts_and_state (b : CircuitBreaker)
    (s : Settings) (t t' : Int) :
    (b.UpdateSettings s t).Counts = Gobreaker.Counts.zero ∧
    (b.UpdateSettings s t).State t' = Gobreaker.State.closed := by
  refine ⟨rfl, ?_⟩
  simp only [CircuitBreaker.State, CircuitBreaker.UpdateSettings,
    Gobreaker.newCircuitBreaker, Gobreaker.CircuitBreaker.refresh]
  split <;> rfl

/-- C4: an admitted call (the admission predicate holds at the call's clock
value) returns exactly the work's result value and exactly the work's
error, unwrapped and unsuppressed; `some` marks that the returned value is
the work's own rather than the rejection path's nil. -/
theorem C4_admitted_call_returns_work_result_unchanged {α : Type}
    (b : CircuitBreaker) (w : α × Option Gobreaker.GoError) (now : Int)
    (h : b.cb.admits now = true) :
    (b.Execute w now).1 = (some w.1, w.2) := by
  unfold Gobreaker.CircuitBreaker.admits at h
  simp only [CircuitBreaker.Execute, Gobreaker.CircuitBreaker.execute]
  cases hs : (b.cb.refresh now).state with
  | closed => simp [hs, Gobreaker.executeAdmitted_fst]
  | opened => rw [hs] at h; simp at h
  | halfOpen =>
      rw [hs] at h
      simp only [decide_eq_true_eq] at h
      simp [hs, h, Gobreaker.executeAdmitted_fst]

/-- Witness for C4: a fresh default breaker admits at clock 0 and a failing
work's nil result and error come back verbatim. -/
theorem C4_witness_fresh_breaker :
    defaultBreaker.cb.admits 0 = true ∧
    (defaultBreaker.Execute failW 0).1 = (some failW.1, failW.2) :=
  ⟨by decide, C4_admitted_call_returns_work_result_unchanged defaultBreaker failW 0 (by decide)⟩

/-- C5: for every sequence of `Execute` calls on a freshly constructed
breaker (arbitrary settings, work outcomes and clock values), the `Counts()`
snapshot after the sequence satisfies
`Requests = TotalSuccesses + TotalFailures`; since every prefix of a
sequence is itself such a sequence, the invariant holds after each
completed call. -/
theorem C5_requests_eq_totalSuccesses_plus_totalFailures (nm : String)
    (s : Settings) (t0 : Int)
    (calls : List ((Option String × Option Gobreaker.GoError) × Int)) :
    ((calls.foldl (fun b c => (b.Execute c.1 c.2).2) (NewCircuitBreaker nm s t0)).Counts).requests
      = ((calls.foldl (fun b c => (b.Execute c.1 c.2).2) (NewCircuitBreaker nm s t0)).Counts).totalSuccesses
        + ((calls.foldl (fun b c => (b.Execute c.1 c.2).2) (NewCircuitBreaker nm s t0)).Counts).totalFailures := by
  have aux : ∀ (l : List ((Option String × Option Gobreaker.GoError) × Int))
      (b : CircuitBreaker), b.cb.counts.consistent →
      ((l.foldl (fun b c => (b.Execute c.1 c.2).2) b).cb.counts).consistent := by
    intro l
    induction l with
    | nil => intro b hb; exact hb
    | cons c cs ih =>
        intro b hb
        simp only [List.foldl_cons]
        exact ih _ (Gobreaker.execute_consistent _ _ _ hb)
  exact aux calls (NewCircuitBreaker nm s t0) rfl

/-- C6: for a breaker in HalfOpen with probe budget `MaxRequests`, a call is
rejected (with the breaker unchanged) once `MaxRequests` requests are
already recorded in the episode, so at most `MaxRequests` calls are
admitted; an admitted failing call transitions back to Open; an admitted
success that reaches `MaxRequests` consecutive successes transitions to
Closed; and an admitted success below the threshold stays HalfOpen with the
request counted against the budget. -/
theorem C6_halfOpen_probe_budget_and_transitions {α : Type}
    (b : CircuitBreaker) (w : α × Option Gobreaker.GoError) (now : Int)
    (h : b.cb.state = Gobreaker.State.halfOpen) :
    (b.cb.maxRequests ≤ b.cb.counts.requests →
        b.Execute w now = ((none, some Gobreaker.GoError.errOpenState), b)) ∧
    (b.cb.counts.requests < b.cb.maxRequests → w.2.isSome = true →
        ((b.Execute w now).2).cb.state = Gobreaker.State.opened) ∧
    (b.cb.counts.requests < b.cb.maxRequests → w.2 = none →
        b.cb.maxRequests ≤ b.cb.counts.consecutiveSuccesses + 1 →
        ((b.Execute w now).2).cb.state = Gobreaker.State.closed) ∧
    (b.cb.counts.requests < b.cb.maxRequests → w.2 = none →
        b.cb.counts.consecutiveSuccesses + 1 < b.cb.maxRequests →
        ((b.Execute w now).2).cb.state = Gobreaker.State.halfOpen ∧
        ((b.Execute w now).2).cb.counts.requests = b.cb.counts.requests + 1) := by
  have h1 : b.cb.refresh now = b.cb := Gobreaker.refresh_eq_of_halfOpen _ _ h
  obtain ⟨v, e⟩ := w
  refine ⟨?_, ?_, ?_, ?_⟩
  · intro hge
    simp only [CircuitBreaker.Execute, Gobreaker.CircuitBreaker.execute, h1, h]
    rw [if_neg (by omega)]
  · intro hlt hsome
    simp only [CircuitBreaker.Execute, Gobreaker.CircuitBreaker.execute, h1, h]
    rw [if_pos hlt]
    obtain ⟨err, rfl⟩ := Option.isSome_iff_exists.mp hsome
    simp [Gobreaker.CircuitBreaker.executeAdmitted, h]
  · intro hlt hnone hge
    subst hnone
    simp only [CircuitBreaker.Execute, Gobreaker.CircuitBreaker.execute, h1, h]
    rw [if_pos hlt]
    simp only [Gobreaker.CircuitBreaker.executeAdmitted, h]
    rw [if_pos (by simp [Gobreaker.Counts.onRequest, Gobreaker.Counts.onSuccess]; omega)]
  · intro hlt hnone hlt2
    subst hnone
    simp only [CircuitBreaker.Execute, Gobreaker.CircuitBreaker.execute, h1, h]
    rw [if_pos hlt]
    simp only [Gobreaker.CircuitBreaker.executeAdmitted, h]
    rw [if_neg (by simp [Gobreaker.Counts.onRequest, Gobreaker.Counts.onSuccess]; omega)]
    simp [Gobreaker.Counts.onRequest, Gobreaker.Counts.onSuccess]

/-- Witness for C6: a default breaker in HalfOpen (after its first
successful probe), probed with a successful work. -/
theorem C6_witness_halfOpen_breaker :
    halfOpenBreaker.cb.state = Gobreaker.State.halfOpen ∧
    ((halfOpenBreaker.cb.maxRequests ≤ halfOpenBreaker.cb.counts.requests →
        halfOpenBreaker.Execute okW (31 * second)
          = ((none, some Gobreaker.GoError.errOpenState), halfOpenBreaker)) ∧
     (halfOpenBreaker.cb.counts.requests < halfOpenBreaker.cb.maxRequests →
        okW.2.isSome = true →
        ((halfOpenBreaker.Execute okW (31 * second)).2).cb.state = Gobreaker.State.opened) ∧
     (halfOpenBreaker.cb.counts.requests < halfOpenBreaker.cb.maxRequests →
        okW.2 = none →
        halfOpenBreaker.cb.maxRequests ≤ halfOpenBreaker.cb.counts.consecutiveSuccesses + 1 →
        ((halfOpenBreaker.Execute okW (31 * second)).2).cb.state = Gobreaker.State.closed) ∧
     (halfOpenBreaker.cb.counts.requests < halfOpenBreaker.cb.maxRequests →
        okW.2 = none →
        halfOpenBreaker.cb.counts.consecutiveSuccesses + 1 < halfOpenBreaker.cb.maxRequests →
        ((halfOpenBreaker.Execute okW (31 * second)).2).cb.state = Gobreaker.State.halfOpen ∧
        ((halfOpenBreaker.Execute okW (31 * second)).2).cb.counts.requests
          = halfOpenBreaker.cb.counts.requests + 1)) :=
  ⟨by decide, C6_halfOpen_probe_budget_and_transitions halfOpenBreaker okW (31 * second) (by decide)⟩

/-- C7 counterexample: a breaker constructed (without validation) with
`MaxRequests = 0` and otherwise the default profile, tripped Open at clock
0; at clock `31s`, more than its 30-second `Timeout` past the Open
transition, the next `Execute` call is NOT admitted: it is rejected with
the circuit-open error instead of invoking the work, because the half-open
admission rule requires the episode's request count to stay strictly below
`MaxRequests`. -/
theorem C7_counterexample_zero_maxRequests :
    zeroMaxOpenBreaker.cb.state = Gobreaker.State.opened ∧
    zeroMaxOpenBreaker.cb.stateStart + zeroMaxOpenBreaker.cb.timeout < 31 * second ∧
    (zeroMaxOpenBreaker.Execute okW (31 * second)).1
      = (none, some Gobreaker.GoError.errOpenState) := by
  decide

/-- C7 as amended: for every breaker that entered Open at some time, with a
positive probe budget (`MaxRequests ≥ 1`), the first `Execute` call issued
after more than `Timeout` has elapsed is admitted as a HalfOpen probe — the
refreshed state is HalfOpen and the call returns the work's own result and
error; rejected calls during the Open period leave the breaker unchanged
(claim C2's theorem), so how many there were is immaterial. -/
theorem C7_amended_timeout_probe_admitted {α : Type} (b : CircuitBreaker)
    (w : α × Option Gobreaker.GoError) (now : Int)
    (h1 : b.cb.state = Gobreaker.State.opened)
    (h2 : b.cb.stateStart + b.cb.timeout < now)
    (h3 : 0 < b.cb.maxRequests) :
    (b.cb.refresh now).state = Gobreaker.State.halfOpen ∧
    (b.Execute w now).1 = (some w.1, w.2) := by
  have hr : (b.cb.refresh now).state = Gobreaker.State.halfOpen ∧
      (b.cb.refresh now).counts = Gobreaker.Counts.zero ∧
      (b.cb.refresh now).maxRequests = b.cb.maxRequests := by
    unfold Gobreaker.CircuitBreaker.refresh
    rw [h1, if_pos (le_of_lt h2)]
    exact ⟨rfl, rfl, rfl⟩
  refine ⟨hr.1, ?_⟩
  simp only [CircuitBreaker.Execute, Gobreaker.CircuitBreaker.execute, hr.1]
  rw [if_pos (by rw [hr.2.1, hr.2.2]; simpa [Gobreaker.Counts.zero] using h3)]
  exact Gobreaker.executeAdmitted_fst _ _ _

/-- Witness for C7 as amended: the default breaker (budget 3) tripped Open
at clock 0 admits a successful probe at clock `31s`. -/
theorem C7_witness_default_breaker :
    openBreaker.cb.state = Gobreaker.State.opened ∧
    openBreaker.cb.stateStart + openBreaker.cb.timeout < 31 * second ∧
    0 < openBreaker.cb.maxRequests ∧
    ((openBreaker.cb.refresh (31 * second)).state = Gobreaker.State.halfOpen ∧
     (openBreaker.Execute okW (31 * second)).1 = (some okW.1, okW.2)) :=
  ⟨by decide, by decide, by decide,
    C7_amended_timeout_probe_admitted openBreaker okW (31 * second)
      (by decide) (by decide) (by decide)⟩

/-- C9: across any sequence of `UpdateSettings` calls, the breaker keeps its
construction-time name, and each replacement inner state machine is created
under that same name. -/
theorem C9_name_preserved_across_updateSettings (nm : String) (s0 : Settings)
    (t0 : Int) (updates : List (Settings × Int)) :
    (updates.foldl (fun x u => x.UpdateSettings u.1 u.2) (NewCircuitBreaker nm s0 t0)).name = nm ∧
    (updates.foldl (fun x u => x.UpdateSettings u.1 u.2) (NewCircuitBreaker nm s0 t0)).cb.name = nm :=
  foldUpdates_name updates _ nm rfl rfl

/-- C10: `NewCircuitBreaker` is a total function of its arguments — every
`Settings` value, including zero `MaxRequests`, zero or negative `Interval`
and `Timeout`, and a nil `ReadyToTrip`, yields a breaker with no error
path — and `GetSettings` then returns exactly the `Settings` value passed
in, unmodified. -/
theorem C10_new_is_total_and_getSettings_returns_input (nm : String)
    (s : Settings) (t : Int) :
    (NewCircuitBreaker nm s t).GetSettings = s := rfl

end Circuitbreaker
